/-
Verification development for the DeepSense model module
(code/model/deepsense.py of the deep-trading-agent repository).

The module defines a Q-network over windowed multi-channel timeseries and
manages its parameters: graph construction (build_model), a lazily cached
parameter accessor (weights), and checkpoint save/load with a retention
policy (tf.train.Saver with max_to_keep = 30).

We give a shallow embedding of the parts of the module the properties
below speak about:
  - the shape semantics of the layer pipeline built by build_model,
  - the numeric semantics of the final dense projection and arg-max head,
  - the TensorFlow variable store with the reuse flag, and the set of
    variables the model creates,
  - the dropout and batch-normalization layer configurations the module
    passes to the framework,
  - a state machine for the checkpoint manager (save_model / load_model /
    the saver property) and the weights accessor.
Framework primitives (tf.layers.conv2d, tf.layers.dropout, tf.train.Saver,
variable scoping) are modelled from their documented TensorFlow semantics;
everything else is translated from the source of deepsense.py.  The string
constants imported from utils.strings (scope names such as CONV_LAYERS) are
not part of the file; they are modelled by representative distinct strings,
which is all the properties depend on.
-/
import Mathlib

namespace DeepSenseVerif

/-- Hyperparameter bundle (DeepSenseParams), with exactly the fields
deepsense.py reads: window size, split size, channel count, convolution
filter/kernel sizes, GRU cell count/size and keep probability, dense layer
sizes, dropout keep probabilities, action count. -/
structure DeepSenseParams where
  window_size : Nat
  split_size : Nat
  num_channels : Nat
  filter_sizes : List Nat
  kernel_sizes : List Nat
  gru_num_cells : Nat
  gru_cell_size : Nat
  gru_keep_prob : ℚ
  dense_layer_sizes : List Nat
  conv_keep_prob : ℚ
  dense_keep_prob : ℚ
  num_actions : Nat
deriving Repr, DecidableEq

/-! ## Shape semantics of the tensor operations used by build_model -/

/-- tf.reshape with a fully specified target shape: succeeds exactly when
the element counts agree, and then yields the target shape. -/
def reshapeShape (s target : List Nat) : Option (List Nat) :=
  if s.prod = target.prod then some target else none

/-- tf.layers.conv2d with kernel_size = [1, kernel], strides (1,1) and
padding "valid" (conv2d_layer, lines 68-78): on a rank-4 input
[batch, height, width, channels] the height is preserved (unit kernel
height) and the width shrinks to width - kernel + 1; the channel dimension
becomes the filter count.  "valid" padding needs 1 <= kernel <= width. -/
def conv2dShape (s : List Nat) (filters kernel : Nat) : Option (List Nat) :=
  match s with
  | [b, h, w, _] =>
    if 1 ≤ kernel ∧ kernel ≤ w then some [b, h, w - kernel + 1, filters] else none
  | _ => none

/-- tf.layers.batch_normalization preserves the shape of its input. -/
def batchNormShape (s : List Nat) : List Nat := s

/-- tf.nn.relu preserves the shape of its input. -/
def reluShape (s : List Nat) : List Nat := s

/-- tf.layers.dropout preserves the shape of its input. -/
def dropoutShape (s : List Nat) : Option (List Nat) := some s

/-- Shape evolution of the convolution stack (lines 145-161): each stage is
convolution, then batch normalization, then relu, then - on every stage but
the last - dropout.  fks pairs each filter size with its kernel size. -/
def convLayersShape (s : List Nat) (fks : List (Nat × Nat)) : Option (List Nat) :=
  match fks with
  | [] => some s
  | (f, k) :: rest =>
    match conv2dShape s f k with
    | none => none
    | some s1 =>
      let s2 := reluShape (batchNormShape s1)
      match rest with
      | [] => some s2
      | r :: rs =>
        match dropoutShape s2 with
        | none => none
        | some s3 => convLayersShape s3 (r :: rs)

/-- tf.nn.dynamic_rnn over a MultiRNNCell whose top cell has numUnits
units: [batch, time, features] becomes [batch, time, numUnits]. -/
def dynamicRnnShape (s : List Nat) (numUnits : Nat) : Option (List Nat) :=
  match s with
  | [b, t, _] => some [b, t, numUnits]
  | _ => none

/-- tf.unstack on axis 1 followed by taking the last element (line 186):
needs at least one timestep and drops the time axis. -/
def unstackLastShape (s : List Nat) : Option (List Nat) :=
  match s with
  | [b, t, d] => if 1 ≤ t then some [b, d] else none
  | _ => none

/-- tf.layers.dense with the given unit count maps [batch, features] to
[batch, units]. -/
def denseShape (s : List Nat) (units : Nat) : Option (List Nat) :=
  match s with
  | [b, _] => some [b, units]
  | _ => none

/-- Shape evolution of the fully connected stack (lines 188-197); the
interleaved dropout layers preserve shapes. -/
def denseStackShape (s : List Nat) (sizes : List Nat) : Option (List Nat) :=
  match sizes with
  | [] => some s
  | u :: rest =>
    match denseShape s u with
    | none => none
    | some s1 => denseStackShape s1 rest

/-- tf.arg_max over dimension 1 maps [batch, n] to [batch]. -/
def argMaxShape (s : List Nat) : Option (List Nat) :=
  match s with
  | [b, _] => some [b]
  | _ => none

/-- A guard for a condition whose failure makes the framework raise. -/
def shapeGuard (c : Prop) [Decidable c] : Option Unit :=
  if c then some () else none

/-- Shape semantics of build_model (lines 134-200).  The batch size is
tf.shape(inputs)[0] (line 137); the input is reshaped to
[batch, split_size, window_size, num_channels] (lines 139-143), run through
the convolution stack, reshaped to [batch, split_size, window * last_filter]
with the window size tracked exactly as the source tracks its window_size
variable (lines 150 and 163-165), run through the GRU stack and unstacked at
the last timestep (lines 167-186), through the dense stack (lines 188-197),
projected to num_actions Q-values and arg-maxed (lines 199-200).  Returns
the shapes of the values and action tensors, or none where the framework
would raise (index errors on empty filter lists, reshape or padding
mismatches, an empty MultiRNNCell, an empty unstack).  Failure conditions
are sequenced as monadic guards. -/
def buildModelShapes (p : DeepSenseParams) (inputShape : List Nat) :
    Option (List Nat × List Nat) :=
  let batch := inputShape.headD 0
  (reshapeShape inputShape [batch, p.split_size, p.window_size, p.num_channels]).bind
    (fun s0 =>
  (shapeGuard (p.filter_sizes.length ≤ p.kernel_sizes.length)).bind (fun _ =>
  (shapeGuard (1 ≤ p.filter_sizes.length)).bind (fun _ =>
  (convLayersShape s0 (p.filter_sizes.zip p.kernel_sizes)).bind (fun s1 =>
  (reshapeShape s1
      [batch, p.split_size,
        ((p.kernel_sizes.take p.filter_sizes.length).foldl
            (fun w k => w - (k : Int) + 1) (p.window_size : Int)).toNat *
          p.filter_sizes.getLastD 0]).bind (fun s2 =>
  (shapeGuard (1 ≤ p.gru_num_cells)).bind (fun _ =>
  (dynamicRnnShape s2 p.gru_cell_size).bind (fun s3 =>
  (unstackLastShape s3).bind (fun s4 =>
  (denseStackShape s4 p.dense_layer_sizes).bind (fun s5 =>
  (denseShape s5 p.num_actions).bind (fun sv =>
  (argMaxShape sv).map (fun sa => (sv, sa))))))))))))

/-! ## Numeric semantics of the Q-value head (lines 199-200) -/

/-- Maximum of a list of rationals (the reduction tf.arg_max maximizes). -/
def maxQ : List ℚ → ℚ
  | [] => 0
  | [x] => x
  | x :: y :: rest => max x (maxQ (y :: rest))

/-- tf.arg_max along a row: the least index attaining the maximum. -/
def argMaxQ : List ℚ → Nat
  | [] => 0
  | [_] => 0
  | x :: y :: rest => if x < maxQ (y :: rest) then argMaxQ (y :: rest) + 1 else 0

/-- tf.layers.dense (dense_layer, lines 80-87) on one feature row:
output j = sum_i x_i * W_(i,j) + bias_j, for j < units; no activation,
as in the Q-value projection of line 199. -/
def denseRow (units : Nat) (w : List (List ℚ)) (bias : List ℚ) (x : List ℚ) : List ℚ :=
  (List.range units).map
    (fun j => ((x.zip w).map (fun q => q.1 * q.2.getD j 0)).sum + bias.getD j 0)

/-- Line 199: the values tensor, the Q-value projection applied to every
row of the recurrent output. -/
def qValuesOf (numActions : Nat) (w : List (List ℚ)) (bias : List ℚ)
    (output : List (List ℚ)) : List (List ℚ) :=
  output.map (denseRow numActions w bias)

/-- Line 200: the action tensor, tf.arg_max of the values over dimension 1. -/
def actionOf (values : List (List ℚ)) : List Nat :=
  values.map argMaxQ

/-! ## The TensorFlow variable store and the reuse flag (C2)

TensorFlow keeps a global registry of named variables.  Inside
tf.variable_scope(name, reuse=reuse), requesting a variable creates a fresh
one when reuse is false (an error if the name already exists) and binds to
the existing one when reuse is true (an error if the name does not exist).
build_model threads its reuse argument into every layer it builds. -/

/-- A scoped name: the "/"-separated path components of a TensorFlow
variable or scope name. -/
abbrev ScopedName := List String

/-- A snapshot of the global variable registry: names bound to variable
identities, plus the next fresh identity. -/
structure VarStore where
  vars : List (ScopedName × Nat)
  next : Nat
deriving Repr, DecidableEq

/-- First binding of a name in an association list. -/
def lookupVar : List (ScopedName × Nat) → ScopedName → Option Nat
  | [], _ => none
  | (m, v) :: rest, n => if m = n then some v else lookupVar rest n

/-- tf.get_variable under a scope with the given reuse flag. -/
def getVariable (s : VarStore) (n : ScopedName) (reuse : Bool) :
    Except String (Nat × VarStore) :=
  match lookupVar s.vars n with
  | some v =>
    if reuse then .ok (v, s)
    else .error ("Variable " ++ "/".intercalate n ++ " already exists")
  | none =>
    if reuse then .error ("Variable " ++ "/".intercalate n ++ " does not exist")
    else .ok (s.next, ⟨s.vars ++ [(n, s.next)], s.next + 1⟩)

/-- Requesting a list of variables in order under one reuse flag, as one
build_model call does for all of its layers. -/
def createAll : List ScopedName → Bool → VarStore → Except String (List Nat × VarStore)
  | [], _, s => .ok ([], s)
  | n :: ns, reuse, s =>
    match getVariable s n reuse with
    | .error e => .error e
    | .ok (v, s1) =>
      match createAll ns reuse s1 with
      | .error e => .error e
      | .ok (vs, s2) => .ok (v :: vs, s2)

/-! ## The variables the model creates (C2, C9) -/

/-- A graph variable: its full scoped name (path components) and whether
it is trainable. -/
structure TFVariable where
  name : ScopedName
  trainable : Bool
deriving Repr, DecidableEq

/-- Variables of tf.layers.conv2d (conv2d_layer does not pass trainable, so
the default, trainable, applies; use_bias defaults to true). -/
def conv2dVariables (scope : ScopedName) : List TFVariable :=
  [⟨scope ++ ["kernel"], true⟩, ⟨scope ++ ["bias"], true⟩]

/-- Variables of tf.layers.batch_normalization with scale=True: gamma and
beta with the trainable flag batch_norm_layer passes (trainable=train,
line 63), and the moving statistics, which TensorFlow always creates as
non-trainable global variables. -/
def batchNormVariables (scope : ScopedName) (trainable : Bool) : List TFVariable :=
  [⟨scope ++ ["gamma"], trainable⟩, ⟨scope ++ ["beta"], trainable⟩,
   ⟨scope ++ ["moving_mean"], false⟩, ⟨scope ++ ["moving_variance"], false⟩]

/-- Variables of tf.layers.dense (dense_layer does not pass trainable). -/
def denseVariables (scope : ScopedName) : List TFVariable :=
  [⟨scope ++ ["kernel"], true⟩, ⟨scope ++ ["bias"], true⟩]

/-- Variables of one tf.contrib.rnn.GRUCell as created inside
tf.nn.dynamic_rnn (the DropoutWrapper adds no variables). -/
def gruCellVariables (scope : ScopedName) : List TFVariable :=
  [⟨scope ++ ["gates", "kernel"], true⟩, ⟨scope ++ ["gates", "bias"], true⟩,
   ⟨scope ++ ["candidate", "kernel"], true⟩, ⟨scope ++ ["candidate", "bias"], true⟩]

/-- All variables one build_model call creates, with their scoped names
(lines 134-201): per convolution stage a convolution and a batch
normalization, per GRU cell its gates and candidate, per dense layer a
kernel and bias, and the final Q-value projection.  Only the trainable flag
of the batch-normalization gamma/beta depends on train; the name set does
not. -/
def buildModelVariables (p : DeepSenseParams) (name : String) (train : Bool) :
    List TFVariable :=
  let convVars := (List.range p.filter_sizes.length).map (fun i =>
    let scope := [name, "conv_layers", "conv_layer" ++ toString (i + 1)]
    conv2dVariables (scope ++ ["conv" ++ toString (i + 1)]) ++
      batchNormVariables (scope ++ ["batch_norm" ++ toString (i + 1)]) train)
  let gruVars := (List.range p.gru_num_cells).map (fun i =>
    gruCellVariables [name, "rnn", "multi_rnn_cell", "cell_" ++ toString i, "gru_cell"])
  let denseVars := (List.range p.dense_layer_sizes.length).map (fun i =>
    let scope := [name, "fully_connected", "dense_layer" ++ toString (i + 1)]
    denseVariables (scope ++ ["dense" ++ toString (i + 1)]))
  convVars.flatten ++ gruVars.flatten ++ denseVars.flatten ++
    denseVariables [name, "q_values"]

/-- The names of the variables one build_model call requests, in order. -/
def buildModelVariableNames (p : DeepSenseParams) (name : String) : List ScopedName :=
  (buildModelVariables p name true).map TFVariable.name

/-! ## Dropout and batch-normalization configurations (C6, C7) -/

/-- Configuration of a tf.layers.dropout call.  Per the framework, rate is
the fraction of units DROPPED while training; surviving units are scaled by
1 / (1 - rate).  With training=false the layer is the identity. -/
structure DropoutSpec where
  rate : ℚ
  training : Bool
deriving Repr, DecidableEq

/-- Probability that a given unit survives a dropout layer. -/
def dropoutSurvivalProb (d : DropoutSpec) : ℚ :=
  if d.training then 1 - d.rate else 1

/-- dropout_conv_layer (lines 89-99): passes its keep_prob argument as the
rate of tf.layers.dropout and train as training (the noise shape does not
affect the per-unit survival probability). -/
def dropout_conv_layer (train : Bool) (keep_prob : ℚ) : DropoutSpec :=
  { rate := keep_prob, training := train }

/-- dropout_dense_layer (lines 101-107): passes keep_prob as rate and train
as training. -/
def dropout_dense_layer (train : Bool) (keep_prob : ℚ) : DropoutSpec :=
  { rate := keep_prob, training := train }

/-- Application of a dropout layer to one row, given the random keep/drop
mask the framework samples while training; with training=false the mask is
ignored and the layer is the identity. -/
def dropoutApply (d : DropoutSpec) (mask : List Bool) (xs : List ℚ) : List ℚ :=
  if d.training then
    (xs.zip mask).map (fun q => if q.2 then q.1 / (1 - d.rate) else 0)
  else xs

/-- The two normalization behaviours of tf.layers.batch_normalization:
batch statistics (training behaviour) or accumulated moving statistics
(inference behaviour). -/
inductive BNMode where
  | batchStats
  | movingStats
deriving Repr, DecidableEq

/-- Configuration of a tf.layers.batch_normalization call: the trainable
flag only marks gamma/beta as trainable variables, while the training
argument selects the normalization behaviour and defaults to false. -/
structure BatchNormSpec where
  trainable : Bool
  training : Bool
  scale : Bool
deriving Repr, DecidableEq

/-- tf.layers.batch_normalization with the keyword arguments batch_norm_layer
passes (lines 60-66): inputs, trainable, name, reuse, scale=True; the
training argument is not passed and keeps its default, false. -/
def batch_normalization (trainable : Bool) (scale : Bool) : BatchNormSpec :=
  { trainable := trainable, training := false, scale := scale }

/-- batch_norm_layer (lines 60-66): forwards the train argument of
build_model to the trainable keyword. -/
def batch_norm_layer (train : Bool) : BatchNormSpec :=
  batch_normalization train true

/-- The normalization behaviour a configuration selects. -/
def bnMode (b : BatchNormSpec) : BNMode :=
  if b.training then .batchStats else .movingStats

/-! ## The layer order of build_model (C8) -/

/-- The operations build_model composes, tagged with their 1-based stage
index as in the scope names of the source. -/
inductive LayerOp where
  | reshapeIn
  | convOp (i : Nat)
  | batchNormOp (i : Nat)
  | reluOp
  | dropoutConvOp (i : Nat)
  | reshapeFlat
  | gruOp
  | denseOp (i : Nat) (relu : Bool)
  | dropoutDenseOp (i : Nat)
  | qValuesOp
  | argMaxOp
deriving Repr, DecidableEq

/-- Operations of the i-th (0-based) convolution stage (lines 148-161):
convolution, batch normalization, relu, and dropout exactly when
i < num_convs - 1. -/
def convStageOps (numConvs i : Nat) : List LayerOp :=
  [.convOp (i + 1), .batchNormOp (i + 1), .reluOp] ++
    (if i < numConvs - 1 then [.dropoutConvOp (i + 1)] else [])

/-- Operations of the i-th (0-based) dense stage (lines 190-197): a dense
layer with relu activation, and dropout exactly when
i < num_dense_layers - 1. -/
def denseStageOps (numDense i : Nat) : List LayerOp :=
  [.denseOp (i + 1) true] ++
    (if i < numDense - 1 then [.dropoutDenseOp (i + 1)] else [])

/-- The full operation order of build_model (lines 134-200): input reshape,
the convolution stages in loop order, the flattening reshape, the recurrent
stack, the dense stages in loop order, the Q-value projection (a dense layer
with no activation) and the arg-max. -/
def buildModelTrace (p : DeepSenseParams) : List LayerOp :=
  let numConvs := p.filter_sizes.length
  let numDense := p.dense_layer_sizes.length
  [.reshapeIn] ++ ((List.range numConvs).map (convStageOps numConvs)).flatten ++
    [.reshapeFlat, .gruOp] ++
    ((List.range numDense).map (denseStageOps numDense)).flatten ++
    [.qValuesOp, .argMaxOp]

/-- The layer order as the specification words it: every convolution stage
except the last is convolution, batch normalization, relu, dropout, and the
last stage has no dropout. -/
def specConvOps (numConvs : Nat) : List LayerOp :=
  ((List.range (numConvs - 1)).map (fun i =>
      [.convOp (i + 1), .batchNormOp (i + 1), .reluOp, .dropoutConvOp (i + 1)])).flatten ++
    [.convOp numConvs, .batchNormOp numConvs, .reluOp]

/-- The dense stack as the specification words it: relu-activated dense
layers with dropout between consecutive layers and none after the final
one. -/
def specDenseOps (numDense : Nat) : List LayerOp :=
  ((List.range (numDense - 1)).map (fun i =>
      [.denseOp (i + 1) true, .dropoutDenseOp (i + 1)])).flatten ++
    [.denseOp numDense true]

/-- The full pipeline as the specification words it. -/
def specTrace (p : DeepSenseParams) : List LayerOp :=
  [.reshapeIn] ++ specConvOps p.filter_sizes.length ++ [.reshapeFlat, .gruOp] ++
    specDenseOps p.dense_layer_sizes.length ++ [.qValuesOp, .argMaxOp]

/-! ## The checkpoint manager and the weights accessor (C3, C4, C5, C9, C10)

Session-held parameter values are a finite name-to-value map; a checkpoint
is a snapshot of that map tagged with the global_step passed to save.  The
on-disk checkpoint directory is the list of live snapshots, oldest first;
tf.train.get_checkpoint_state reports the most recent one. -/

/-- Parameter values held by the session. -/
abbrev ParamVals := List (String × ℚ)

/-- Instance state of a DeepSense object: the fields __init__ creates
(lines 14-25) that the claims touch.  saver holds the max_to_keep bound of
the tf.train.Saver when one has been created, none while self._saver is
None; weightsCache mirrors self._weights. -/
structure ModelState where
  name : String
  modelDir : String
  saver : Option Nat
  sessParams : ParamVals
  ckpts : List (Option Nat × ParamVals)
  weightsCache : Option (List (ScopedName × TFVariable))
deriving Repr, DecidableEq

/-- __init__ (lines 14-25): records the name, derives the model directory
as save_dir/name (creating it on disk), and leaves _saver and _weights as
None.  The session with its parameter values is injected. -/
def initState (saveDir name : String) (sess : ParamVals) : ModelState :=
  { name := name
    modelDir := saveDir ++ "/" ++ name
    saver := none
    sessParams := sess
    ckpts := []
    weightsCache := none }

/-- The last n elements of a list. -/
def lastN (n : Nat) (l : List α) : List α := l.drop (l.length - n)

/-- tf.train.Saver.save with max_to_keep = maxKeep: writes the new snapshot
and discards the oldest beyond the retention bound, keeping the maxKeep
most recent. -/
def saverSave (maxKeep : Nat) (ckpts : List (Option Nat × ParamVals))
    (entry : Option Nat × ParamVals) : List (Option Nat × ParamVals) :=
  lastN maxKeep (ckpts ++ [entry])

/-- The saver property (lines 39-43): creates a tf.train.Saver with
max_to_keep = 30 on first read, and returns the existing one afterwards. -/
def saverProperty (st : ModelState) : Nat × ModelState :=
  match st.saver with
  | some s => (s, st)
  | none => (30, { st with saver := some 30 })

/-- Line 201 of build_model: self._saver = tf.train.Saver(max_to_keep=30). -/
def buildModelSaver (st : ModelState) : ModelState :=
  { st with saver := some 30 }

/-- save_model (lines 109-115): builds the save path model_dir/name, then
calls self._saver.save(sess, path, global_step=step) - an attribute error
when self._saver is still None - and logs the source and destination
paths.  The saver appends the snapshot of the current session parameters
and prunes to its retention bound. -/
def saveModel (st : ModelState) (step : Option Nat) :
    Except String (ModelState × List String) :=
  let savePath := st.modelDir ++ "/" ++ st.name
  let msg1 := "Saving model to " ++ savePath
  match st.saver with
  | none => .error "AttributeError: NoneType object has no attribute save"
  | some maxKeep =>
    let finalPath :=
      match step with
      | some s => savePath ++ "-" ++ toString s
      | none => savePath
    .ok ({ st with ckpts := saverSave maxKeep st.ckpts (step, st.sessParams) },
         [msg1, "Model saved to " ++ finalPath])

/-- load_model (lines 117-132): reads the checkpoint state of the model
directory; when a checkpoint is present it calls self._saver.restore - an
attribute error when self._saver is None - overwriting the session
parameters with the snapshot and returning true; otherwise it logs a
message and returns false, touching nothing. -/
def loadModel (st : ModelState) :
    Except String (Bool × ModelState × List String) :=
  let msg1 := "Loading checkpoints from " ++ st.modelDir
  match st.ckpts.getLast? with
  | some (_, snap) =>
    match st.saver with
    | none => .error "AttributeError: NoneType object has no attribute restore"
    | some _ =>
      .ok (true, { st with sessParams := snap },
           [msg1, "Model successfully loaded from " ++ st.modelDir])
  | none =>
    .ok (false, st, [msg1, "Model could not be loaded from " ++ st.modelDir])

/-- A sequence of save_model calls with the given steps, propagating the
first error. -/
def saveMany (st : ModelState) (steps : List Nat) : Except String ModelState :=
  match steps with
  | [] => .ok st
  | s :: rest =>
    match saveModel st (some s) with
    | .error e => .error e
    | .ok (st1, _) => saveMany st1 rest

/-- tf.get_collection(tf.GraphKeys.GLOBAL_VARIABLES, scope): all global
variables - trainable or not - whose names lie under the scope (their
top-level path component is the scope name). -/
def getCollectionGlobal (graph : List TFVariable) (scope : String) :
    List TFVariable :=
  graph.filter (fun v => v.name.head? == some scope)

/-- Line 56: name = "/".join(variable.name.split("/")[1:]); on path
components, stripping the top-level scope component is dropping the first
component. -/
def stripScope (n : ScopedName) : ScopedName :=
  n.drop 1

/-- The mapping the weights property computes (lines 51-57): every global
variable under the model scope, keyed by its name with the top-level scope
component stripped. -/
def weightsCompute (graph : List TFVariable) (scope : String) :
    List (ScopedName × TFVariable) :=
  (getCollectionGlobal graph scope).map (fun v => ( stripScope v.name, v))

/-- The weights property (lines 49-58): computes the mapping on first read
and caches it in self._weights; later reads return the cache. -/
def weightsRead (st : ModelState) (graph : List TFVariable) :
    List (ScopedName × TFVariable) × ModelState :=
  match st.weightsCache with
  | some w => (w, st)
  | none =>
    let w := weightsCompute graph st.name
    (w, { st with weightsCache := some w })

/-- The mapping as the claim words it: exactly the TRAINABLE parameters
under the model scope, keyed by the stripped name.  (Stated from the
specification text, to be compared with weightsCompute.) -/
def weightsClaimed (graph : List TFVariable) (scope : String) :
    List (ScopedName × TFVariable) :=
  (graph.filter (fun v => v.trainable && (v.name.head? == some scope))).map
    (fun v => ( stripScope v.name, v))

/-! ## Conclusion predicates of the composite properties -/

/-- Conclusion of property C1 for a build with hyperparameters p on an
input of shape inputShape: the values tensor has shape [batch, num_actions]
and the action tensor shape [batch], and - for any Q-projection parameters
w, bias and any recurrent output rows - every action entry is an index of
a maximum of its values row. -/
def ValuesActionSpec (p : DeepSenseParams) (inputShape vs as : List Nat)
    (w : List (List ℚ)) (bias : List ℚ) (output : List (List ℚ)) : Prop :=
  vs = [inputShape.headD 0, p.num_actions] ∧
  as = [inputShape.headD 0] ∧
  (qValuesOf p.num_actions w bias output).length = output.length ∧
  (∀ row ∈ qValuesOf p.num_actions w bias output, row.length = p.num_actions) ∧
  (actionOf (qValuesOf p.num_actions w bias output)).length = output.length ∧
  ∀ i, i < output.length →
    (actionOf (qValuesOf p.num_actions w bias output)).getD i 0 < p.num_actions ∧
    ∀ j, j < p.num_actions →
      ((qValuesOf p.num_actions w bias output).getD i []).getD j 0 ≤
        ((qValuesOf p.num_actions w bias output).getD i []).getD
          ((actionOf (qValuesOf p.num_actions w bias output)).getD i 0) 0

/-- Conclusion of property C2: building once with reuse=false from an empty
registry creates the variables, and building again with reuse=true binds to
exactly the same variables and leaves the registry unchanged. -/
def ReuseSpec (names : List ScopedName) : Prop :=
  ∃ ids s1, createAll names false ⟨[], 0⟩ = .ok (ids, s1) ∧
    createAll names true s1 = .ok (ids, s1)

/-- Conclusion of property C3: one save_model(step) succeeds, and
load_model afterwards succeeds, returns true, and restores the session
parameters to exactly the values they had at save time. -/
def SaveLoadSpec (st : ModelState) (step : Option Nat) : Prop :=
  ∃ st1 msgs, saveModel st step = .ok (st1, msgs) ∧
    ∃ st2 msgs2, loadModel st1 = .ok (true, st2, msgs2) ∧
      st2.sessParams = st.sessParams

/-- Conclusion of property C4: the run of saves succeeds and afterwards the
checkpoint directory holds exactly the snapshots of the 30 most recent
steps, every earlier one removed. -/
def RetentionSpec (st : ModelState) (steps : List Nat) : Prop :=
  ∃ st1, saveMany st steps = .ok st1 ∧
    st1.ckpts = lastN 30 (steps.map (fun s => (some s, st.sessParams))) ∧
    st1.ckpts.length = 30

/-- Conclusion of the amended property C9: the first read of weights
computes the global-variable mapping under the model scope with the scope
prefix stripped and caches it; every later read - even against a changed
registry - returns the cached mapping and leaves the state unchanged. -/
def WeightsSpec (st : ModelState) (graph graph2 : List TFVariable) : Prop :=
  (weightsRead st graph).1 = weightsCompute graph st.name ∧
  (weightsRead st graph).2.weightsCache = some (weightsCompute graph st.name) ∧
  (weightsRead (weightsRead st graph).2 graph2).1 = (weightsRead st graph).1 ∧
  (weightsRead (weightsRead st graph).2 graph2).2 = (weightsRead st graph).2

/-- Conclusion of property C10: a freshly constructed instance has no
saver; save_model on a saver-less state raises, and load_model on a
saver-less state with a checkpoint present raises. -/
def SaverNoneSpec (saveDir nm : String) (sess : ParamVals)
    (st : ModelState) (step : Option Nat) : Prop :=
  (initState saveDir nm sess).saver = none ∧
  (∃ e, saveModel st step = .error e) ∧
  (∃ e, loadModel st = .error e)

/-- Concrete hyperparameters used by the witnesses: one convolution stage
(filter 2, kernel 2) over a window of 4 with 2 splits and 3 channels, one
GRU cell of size 5, one dense layer of size 3, two actions. -/
def witnessParams : DeepSenseParams :=
  { window_size := 4, split_size := 2, num_channels := 3,
    filter_sizes := [2], kernel_sizes := [2],
    gru_num_cells := 1, gru_cell_size := 5, gru_keep_prob := 1/2,
    dense_layer_sizes := [3], conv_keep_prob := 4/5, dense_keep_prob := 4/5,
    num_actions := 2 }

/-- A freshly constructed instance used by the witnesses. -/
def witnessFresh : ModelState :=
  initState "save" "deepsense" [("w", 1/2)]

/-- A constructed-and-built instance: build_model has run, so the saver
exists with max_to_keep = 30. -/
def witnessState : ModelState :=
  buildModelSaver witnessFresh

/-- A fresh instance whose directory nevertheless holds a checkpoint
(saver still None), for the C10 witness. -/
def witnessSaverless : ModelState :=
  { witnessFresh with ckpts := [(some 1, [("w", 1)])] }

/-! # Theorems -/

/-! ## Lemmas about the arg-max head -/

theorem maxQ_ge : ∀ (xs : List ℚ) (j : Nat), j < xs.length →
    xs.getD j 0 ≤ maxQ xs
  | [], j, hj => by simp at hj
  | [x], j, hj => by
    have hj0 : j = 0 := by simpa using Nat.lt_one_iff.mp (by simpa using hj)
    subst hj0; simp [maxQ]
  | x :: y :: rest, j, hj => by
    cases j with
    | zero => simp [maxQ]
    | succ k =>
      have ih := maxQ_ge (y :: rest) k (by simpa using hj)
      calc (x :: y :: rest).getD (k + 1) 0 = (y :: rest).getD k 0 := by
            simp [List.getD_cons_succ]
        _ ≤ maxQ (y :: rest) := ih
        _ ≤ maxQ (x :: y :: rest) := by simp [maxQ]

theorem argMaxQ_lt_length : ∀ (xs : List ℚ), xs ≠ [] → argMaxQ xs < xs.length
  | [], h => absurd rfl h
  | [x], _ => by simp [argMaxQ]
  | x :: y :: rest, _ => by
    have ih := argMaxQ_lt_length (y :: rest) (by simp)
    by_cases hx : x < maxQ (y :: rest)
    · simp only [argMaxQ, if_pos hx, List.length_cons]
      simp only [List.length_cons] at ih
      omega
    · simp [argMaxQ, if_neg hx]

theorem argMaxQ_getD : ∀ (xs : List ℚ), xs ≠ [] →
    xs.getD (argMaxQ xs) 0 = maxQ xs
  | [], h => absurd rfl h
  | [x], _ => by simp [argMaxQ, maxQ]
  | x :: y :: rest, _ => by
    have ih := argMaxQ_getD (y :: rest) (by simp)
    by_cases hx : x < maxQ (y :: rest)
    · simp only [argMaxQ, if_pos hx, List.getD_cons_succ, maxQ]
      rw [ih, max_eq_right (le_of_lt hx)]
    · simp only [argMaxQ, if_neg hx, List.getD_cons_zero, maxQ]
      rw [max_eq_left (not_lt.mp hx)]

theorem denseRow_length (units : Nat) (w : List (List ℚ)) (bias : List ℚ)
    (x : List ℚ) : (denseRow units w bias x).length = units := by
  simp [denseRow]

/-! ## Lemmas about the shape pipeline -/

theorem reshapeShape_some {s target u : List Nat}
    (h : reshapeShape s target = some u) : u = target := by
  unfold reshapeShape at h
  split at h
  · exact (Option.some_inj.mp h).symm
  · exact absurd h (by simp)

theorem shapeGuard_eq_some {c : Prop} [Decidable c] {u : Unit}
    (h : shapeGuard c = some u) : c := by
  unfold shapeGuard at h
  split at h
  · assumption
  · exact absurd h (by simp)

theorem denseStackShape_shape : ∀ (sizes : List Nat) (b d : Nat) (s : List Nat),
    denseStackShape [b, d] sizes = some s → ∃ d2, s = [b, d2]
  | [], b, d, s, h => ⟨d, (Option.some_inj.mp h).symm⟩
  | u :: rest, b, d, s, h => by
    simp only [denseStackShape, denseShape] at h
    exact denseStackShape_shape rest b u s h

/-- Claim C1: for every valid hyperparameter bundle and every input tensor
reshapable to (batch, split_size, window_size, channels) - that is,
whenever the shape pipeline of build_model succeeds - the values tensor
has shape (batch, num_actions) and the action tensor shape (batch,), and
for every row i the action entry is the index of a maximum element of the
values row: values[i][action[i]] is greatest and action[i] < num_actions. -/
theorem claim_C1_values_action (p : DeepSenseParams) (inputShape vs as : List Nat)
    (w : List (List ℚ)) (bias : List ℚ) (output : List (List ℚ))
    (h : buildModelShapes p inputShape = some (vs, as))
    (ha : 1 ≤ p.num_actions) :
    ValuesActionSpec p inputShape vs as w bias output := by
  have hshape : vs = [inputShape.headD 0, p.num_actions] ∧ as = [inputShape.headD 0] := by
    simp only [buildModelShapes, Option.bind_eq_some, Option.map_eq_some'] at h
    obtain ⟨s0, hr0, u1, hg1, u2, hg2, s1, hc1, s2, hr2, u3, hg3, s3, h3,
      s4, h4, s5, h5, sv1, h6, sa1, h7, hpair⟩ := h
    have hs2 := reshapeShape_some hr2
    subst hs2
    simp only [dynamicRnnShape, Option.some_inj] at h3
    subst h3
    simp only [unstackLastShape] at h4
    split at h4
    · rw [Option.some_inj] at h4
      subst h4
      obtain ⟨d2, hs5⟩ := denseStackShape_shape _ _ _ _ h5
      subst hs5
      simp only [denseShape, Option.some_inj] at h6
      subst h6
      simp only [argMaxShape, Option.some_inj] at h7
      subst h7
      simp only [Prod.mk.injEq] at hpair
      exact ⟨hpair.1.symm, hpair.2.symm⟩
    · exact absurd h4 (by simp)
  refine ⟨hshape.1, hshape.2, ?_, ?_, ?_, ?_⟩
  · simp [qValuesOf]
  · intro row hrow
    simp only [qValuesOf, List.mem_map] at hrow
    obtain ⟨x, _, hx⟩ := hrow
    rw [← hx, denseRow_length]
  · simp [actionOf, qValuesOf]
  · intro i hi
    have hiv : i < (qValuesOf p.num_actions w bias output).length := by
      simpa [qValuesOf] using hi
    have hrow : (qValuesOf p.num_actions w bias output).getD i [] =
        denseRow p.num_actions w bias (output.getD i []) := by
      rw [List.getD_eq_getElem _ _ hiv, List.getD_eq_getElem _ _ hi]
      simp [qValuesOf]
    have hact : (actionOf (qValuesOf p.num_actions w bias output)).getD i 0 =
        argMaxQ ((qValuesOf p.num_actions w bias output).getD i []) := by
      have hia : i < (actionOf (qValuesOf p.num_actions w bias output)).length := by
        simpa [actionOf, qValuesOf] using hi
      rw [List.getD_eq_getElem _ _ hia, List.getD_eq_getElem _ _ hiv]
      simp [actionOf]
    have hlen : ((qValuesOf p.num_actions w bias output).getD i []).length =
        p.num_actions := by
      rw [hrow, denseRow_length]
    have hne : (qValuesOf p.num_actions w bias output).getD i [] ≠ [] := by
      intro hcon
      rw [hcon] at hlen
      simp at hlen
      omega
    constructor
    · rw [hact]
      have h1 := argMaxQ_lt_length _ hne
      omega
    · intro j hj
      rw [hact, argMaxQ_getD _ hne]
      exact maxQ_ge _ j (by omega)

/-- Witness for claim C1 at concrete inputs: the shape pipeline of the
witness hyperparameters on an input of shape [4, 24] yields value shape
[4, 2] and action shape [4], and the arg-max relation holds for a concrete
Q-projection. -/
theorem claim_C1_witness :
    buildModelShapes witnessParams [4, 24] = some ([4, 2], [4]) ∧
    1 ≤ witnessParams.num_actions ∧
    ValuesActionSpec witnessParams [4, 24] [4, 2] [4]
      [[1, 0], [0, 2]] [1, 0] [[3, 4], [5, 5]] :=
  ⟨by decide, by decide,
    claim_C1_values_action witnessParams [4, 24] [4, 2] [4]
      [[1, 0], [0, 2]] [1, 0] [[3, 4], [5, 5]] (by decide) (by decide)⟩

/-! ## Lemmas about the layer order -/

theorem convOps_split (n : Nat) (h : 1 ≤ n) :
    ((List.range n).map (convStageOps n)).flatten = specConvOps n := by
  obtain ⟨k, rfl⟩ : ∃ k, n = k + 1 := ⟨n - 1, by omega⟩
  rw [List.range_succ, List.map_append, List.flatten_append]
  have h1 : ∀ i ∈ List.range k, convStageOps (k + 1) i =
      [.convOp (i + 1), .batchNormOp (i + 1), .reluOp, .dropoutConvOp (i + 1)] := by
    intro i hi
    simp only [List.mem_range] at hi
    simp [convStageOps, hi]
  rw [List.map_congr_left h1]
  simp [specConvOps, convStageOps]

theorem denseOps_split (n : Nat) (h : 1 ≤ n) :
    ((List.range n).map (denseStageOps n)).flatten = specDenseOps n := by
  obtain ⟨k, rfl⟩ : ∃ k, n = k + 1 := ⟨n - 1, by omega⟩
  rw [List.range_succ, List.map_append, List.flatten_append]
  have h1 : ∀ i ∈ List.range k, denseStageOps (k + 1) i =
      [.denseOp (i + 1) true, .dropoutDenseOp (i + 1)] := by
    intro i hi
    simp only [List.mem_range] at hi
    simp [denseStageOps, hi]
  rw [List.map_congr_left h1]
  simp [specDenseOps, denseStageOps]

/-- Claim C8: build_model applies its stages in the order the
specification gives.  Every convolution stage is convolution, then batch
normalization, then relu, then dropout - except the last convolution
stage, which has no dropout; every dense layer of the stack applies relu
activation, with dropout between consecutive dense layers and none after
the final one; the Q-value projection (with no activation) and the arg-max
close the pipeline. -/
theorem claim_C8_layer_order (p : DeepSenseParams)
    (hconv : 1 ≤ p.filter_sizes.length)
    (hdense : 1 ≤ p.dense_layer_sizes.length) :
    buildModelTrace p = specTrace p := by
  simp only [buildModelTrace, specTrace]
  rw [convOps_split _ hconv, denseOps_split _ hdense]

/-- Witness for claim C8 at the concrete witness hyperparameters. -/
theorem claim_C8_witness :
    1 ≤ witnessParams.filter_sizes.length ∧
    1 ≤ witnessParams.dense_layer_sizes.length ∧
    buildModelTrace witnessParams = specTrace witnessParams :=
  ⟨by decide, by decide,
    claim_C8_layer_order witnessParams (by decide) (by decide)⟩

/-! ## Lemmas about the variable store and the reuse flag -/

theorem lookupVar_append (a b : List (ScopedName × Nat)) (n : ScopedName) :
    lookupVar (a ++ b) n =
      match lookupVar a n with
      | some v => some v
      | none => lookupVar b n := by
  induction a with
  | nil => simp [lookupVar]
  | cons hd tl ih =>
    by_cases hh : hd.1 = n
    · simp [lookupVar, hh]
    · simp only [List.cons_append, lookupVar, if_neg hh]
      exact ih

theorem createAll_fresh : ∀ (ns : List ScopedName) (s : VarStore),
    ns.Nodup → (∀ n ∈ ns, lookupVar s.vars n = none) →
    createAll ns false s =
      .ok (List.range' s.next ns.length,
        ⟨s.vars ++ ns.zip (List.range' s.next ns.length), s.next + ns.length⟩)
  | [], s, _, _ => by simp [createAll]
  | n :: ns, s, hnd, hf => by
    have hn : lookupVar s.vars n = none := hf n (by simp)
    have hnot : n ∉ ns := (List.nodup_cons.mp hnd).1
    have hnd2 : ns.Nodup := (List.nodup_cons.mp hnd).2
    have hf2 : ∀ m ∈ ns, lookupVar (s.vars ++ [(n, s.next)]) m = none := by
      intro m hm
      rw [lookupVar_append]
      have hne : n ≠ m := fun hcon => hnot (hcon ▸ hm)
      simp [hf m (by simp [hm]), lookupVar, hne]
    have ih := createAll_fresh ns ⟨s.vars ++ [(n, s.next)], s.next + 1⟩ hnd2 hf2
    simp only [createAll, getVariable, hn]
    rw [if_neg (by simp)]
    dsimp only
    rw [ih]
    dsimp only
    rw [List.length_cons, List.range'_succ, List.zip_cons_cons]
    simp [List.append_assoc]
    omega

theorem lookupVar_zip_self : ∀ (ns : List ScopedName) (ids : List Nat), ns.Nodup →
    ∀ pr ∈ ns.zip ids, lookupVar (ns.zip ids) pr.1 = some pr.2
  | [], _, _, pr, hpr => by simp at hpr
  | _ :: _, [], _, pr, hpr => by simp at hpr
  | n :: ns, a :: ids, hnd, pr, hpr => by
    rw [List.zip_cons_cons] at hpr ⊢
    rcases List.mem_cons.mp hpr with hhd | htl
    · subst hhd
      simp [lookupVar]
    · have hmem := List.of_mem_zip htl
      have hne : n ≠ pr.1 := by
        intro hcon
        exact (List.nodup_cons.mp hnd).1 (hcon ▸ hmem.1)
      simp only [lookupVar, if_neg hne]
      exact lookupVar_zip_self ns ids (List.nodup_cons.mp hnd).2 pr htl

theorem createAll_reuse : ∀ (ns : List ScopedName) (ids : List Nat) (s : VarStore),
    ns.length = ids.length →
    (∀ pr ∈ ns.zip ids, lookupVar s.vars pr.1 = some pr.2) →
    createAll ns true s = .ok (ids, s)
  | [], [], s, _, _ => by simp [createAll]
  | [], _ :: _, _, hlen, _ => by simp at hlen
  | _ :: _, [], _, hlen, _ => by simp at hlen
  | n :: ns, a :: ids, s, hlen, hl => by
    have hn : lookupVar s.vars n = some a := by
      have := hl (n, a) (by rw [List.zip_cons_cons]; simp)
      simpa using this
    have ih := createAll_reuse ns ids s (by simpa using hlen)
      (fun pr hpr => hl pr (by rw [List.zip_cons_cons]; exact List.mem_cons_of_mem _ hpr))
    simp [createAll, getVariable, hn, ih]

theorem reuse_roundtrip (ns : List ScopedName) (h : ns.Nodup) : ReuseSpec ns := by
  refine ⟨List.range' 0 ns.length,
    ⟨[] ++ ns.zip (List.range' 0 ns.length), 0 + ns.length⟩, ?_, ?_⟩
  · exact createAll_fresh ns ⟨[], 0⟩ h (fun n _ => rfl)
  · apply createAll_reuse
    · simp
    · intro pr hpr
      simpa using lookupVar_zip_self ns _ h pr hpr

/-- Claim C2: the first build_model call with reuse=false creates fresh
parameters for every layer it builds, and a subsequent call with
reuse=true on the same model name binds to exactly those existing
parameters - the two graphs share identical parameter tensors and the
registry is not extended.  Holds because build_model threads its reuse
argument into the variable scope of every layer; the hypothesis is that
the scoped variable names of one build are pairwise distinct. -/
theorem claim_C2_reuse_binding (p : DeepSenseParams) (name : String)
    (h : (buildModelVariableNames p name).Nodup) :
    ReuseSpec (buildModelVariableNames p name) :=
  reuse_roundtrip _ h

/-- Witness for claim C2 at the concrete witness hyperparameters and the
default model name. -/
theorem claim_C2_witness :
    (buildModelVariableNames witnessParams "deepsense").Nodup ∧
    ReuseSpec (buildModelVariableNames witnessParams "deepsense") :=
  ⟨by decide, claim_C2_reuse_binding witnessParams "deepsense" (by decide)⟩

/-! ## Lemmas about checkpoint retention -/

theorem lastN_length (n : Nat) (l : List α) : (lastN n l).length = min n l.length := by
  simp only [lastN, List.length_drop]
  omega

theorem lastN_all (n : Nat) (l : List α) (h : l.length ≤ n) : lastN n l = l := by
  simp [lastN, Nat.sub_eq_zero_of_le h]

theorem lastN_append_lastN (n : Nat) (X B : List α) :
    lastN n (lastN n X ++ B) = lastN n (X ++ B) := by
  unfold lastN
  rcases le_or_lt X.length n with hXn | hnX
  · rw [Nat.sub_eq_zero_of_le hXn, List.drop_zero]
  · have hdl : (X.drop (X.length - n)).length = n := by
      rw [List.length_drop]
      omega
    rw [List.length_append, List.length_append, hdl]
    rcases le_or_lt B.length n with hBn | hnB
    · rw [show n + B.length - n = B.length from by omega]
      rw [List.drop_append_of_le_length (by omega : B.length ≤ (X.drop (X.length - n)).length)]
      rw [List.drop_drop]
      rw [show X.length - n + B.length = X.length + B.length - n from by omega]
      rw [List.drop_append_of_le_length (by omega : X.length + B.length - n ≤ X.length)]
    · rw [show n + B.length - n = (X.drop (X.length - n)).length + (B.length - n) from by
        rw [hdl]; omega]
      rw [List.drop_append]
      rw [show X.length + B.length - n = X.length + (B.length - n) from by omega]
      rw [List.drop_append]

theorem getLast?_saverSave (maxKeep : Nat) (c : List (Option Nat × ParamVals))
    (e : Option Nat × ParamVals) (h : 1 ≤ maxKeep) :
    (saverSave maxKeep c e).getLast? = some e := by
  unfold saverSave lastN
  rw [List.length_append]
  rw [List.drop_append_of_le_length (by simp; omega)]
  exact List.getLast?_concat _

theorem saveModel_ok (st : ModelState) (step : Option Nat) (maxKeep : Nat)
    (hs : st.saver = some maxKeep) :
    ∃ msgs, saveModel st step =
      .ok ({ st with ckpts := saverSave maxKeep st.ckpts (step, st.sessParams) }, msgs) := by
  unfold saveModel
  rw [hs]
  exact ⟨_, rfl⟩

theorem saveMany_ok : ∀ (steps : List Nat) (st : ModelState),
    st.saver = some 30 → st.ckpts.length ≤ 30 →
    ∃ st1, saveMany st steps = .ok st1 ∧
      st1.ckpts = lastN 30 (st.ckpts ++ steps.map (fun s => (some s, st.sessParams))) ∧
      st1.sessParams = st.sessParams
  | [], st, _, hlen =>
    ⟨st, rfl, by rw [List.map_nil, List.append_nil, lastN_all 30 _ hlen], rfl⟩
  | s :: rest, st, hs, hlen => by
    obtain ⟨msgs, hsave⟩ := saveModel_ok st (some s) 30 hs
    have hlen1 : (saverSave 30 st.ckpts (some s, st.sessParams)).length ≤ 30 := by
      unfold saverSave
      rw [lastN_length]
      omega
    obtain ⟨st1, h1, h2, h3⟩ := saveMany_ok rest
      { st with ckpts := saverSave 30 st.ckpts (some s, st.sessParams) } hs hlen1
    dsimp only at h2 h3
    refine ⟨st1, ?_, ?_, h3⟩
    · unfold saveMany
      rw [hsave]
      exact h1
    · rw [h2, List.map_cons]
      unfold saverSave
      rw [lastN_append_lastN, List.append_assoc, List.singleton_append]

/-- Claim C3: on a built model (the saver from build_model is present,
with max_to_keep = 30), save_model(step) followed by load_model restores
every session parameter to a value identical to its value at save time,
and load_model returns true. -/
theorem claim_C3_save_then_load (st : ModelState) (step : Option Nat)
    (hs : st.saver = some 30) : SaveLoadSpec st step := by
  obtain ⟨msgs, hsave⟩ := saveModel_ok st step 30 hs
  refine ⟨_, msgs, hsave, ?_⟩
  unfold loadModel
  rw [show ({ st with ckpts := saverSave 30 st.ckpts (step, st.sessParams) } :
      ModelState).ckpts.getLast? = some (step, st.sessParams) from
    getLast?_saverSave 30 st.ckpts (step, st.sessParams) (by omega)]
  dsimp only
  rw [hs]
  exact ⟨_, _, rfl, rfl⟩

/-- Witness for claim C3 on a concrete built instance and step 5. -/
theorem claim_C3_witness :
    witnessState.saver = some 30 ∧ SaveLoadSpec witnessState (some 5) :=
  ⟨rfl, claim_C3_save_then_load witnessState (some 5) rfl⟩

/-- Claim C4: after more than 30 save_model calls (with distinct steps) on
a built model whose directory starts empty, the checkpoint directory holds
exactly the snapshots of the 30 most recent steps; every earlier snapshot
has been removed by the retention policy of the saver
(tf.train.Saver(max_to_keep=30)). -/
theorem claim_C4_retention (st : ModelState) (steps : List Nat)
    (hs : st.saver = some 30) (hc : st.ckpts = [])
    (hlen : 30 < steps.length) (_hnd : steps.Nodup) :
    RetentionSpec st steps := by
  obtain ⟨st1, h1, h2, _⟩ := saveMany_ok steps st hs (by rw [hc]; simp)
  refine ⟨st1, h1, ?_, ?_⟩
  · rw [h2, hc, List.nil_append]
  · rw [h2, hc, List.nil_append, lastN_length, List.length_map]
    omega

/-- Witness for claim C4: 31 saves with steps 0..30 on a concrete built
instance. -/
theorem claim_C4_witness :
    witnessState.saver = some 30 ∧ witnessState.ckpts = [] ∧
    30 < (List.range 31).length ∧ (List.range 31).Nodup ∧
    RetentionSpec witnessState (List.range 31) :=
  ⟨rfl, rfl, by decide, by decide,
    claim_C4_retention witnessState (List.range 31) rfl rfl (by decide) (by decide)⟩

/-- Claim C5: load_model on an instance whose checkpoint directory is
empty (no checkpoint present) returns false, raises no exception
(the result is ok, and in particular self._saver is never dereferenced),
logs a could-not-be-loaded message, and leaves the state - in particular
every session parameter - unchanged. -/
theorem claim_C5_load_empty (st : ModelState) (h : st.ckpts = []) :
    loadModel st = .ok (false, st,
      ["Loading checkpoints from " ++ st.modelDir,
       "Model could not be loaded from " ++ st.modelDir]) := by
  unfold loadModel
  rw [h]
  rfl

/-- Witness for claim C5 on a freshly constructed instance whose saver is
even still None. -/
theorem claim_C5_witness :
    witnessFresh.ckpts = [] ∧
    loadModel witnessFresh = .ok (false, witnessFresh,
      ["Loading checkpoints from " ++ witnessFresh.modelDir,
       "Model could not be loaded from " ++ witnessFresh.modelDir]) :=
  ⟨rfl, claim_C5_load_empty witnessFresh rfl⟩

/-- Claim C10: a freshly constructed instance (build_model not called, the
saver property never read) has its internal saver field None; on any state
in that situation save_model raises an attribute error, and load_model
raises as well whenever a checkpoint is present in the model directory -
so the no-exception guarantee of save/load has build_model (or a prior
saver read) as an unstated precondition. -/
theorem claim_C10_saver_none (saveDir nm : String) (sess : ParamVals)
    (st : ModelState) (step : Option Nat)
    (hsaver : st.saver = none) (hckpt : st.ckpts ≠ []) :
    SaverNoneSpec saveDir nm sess st step := by
  refine ⟨rfl, ?_, ?_⟩
  · unfold saveModel
    rw [hsaver]
    exact ⟨_, rfl⟩
  · obtain ⟨e, hl⟩ : ∃ e, st.ckpts.getLast? = some e := by
      cases hgl : st.ckpts.getLast? with
      | none => exact absurd (List.getLast?_eq_none_iff.mp hgl) hckpt
      | some e => exact ⟨e, rfl⟩
    obtain ⟨stp, snap⟩ := e
    unfold loadModel
    rw [hl, hsaver]
    exact ⟨_, rfl⟩

/-- Witness for claim C10: the concrete fresh instance, and the same
instance confronted with a directory that already holds a checkpoint. -/
theorem claim_C10_witness :
    witnessSaverless.saver = none ∧ witnessSaverless.ckpts ≠ [] ∧
    SaverNoneSpec "save" "deepsense" [("w", 1/2)] witnessSaverless (some 7) :=
  ⟨rfl, by decide,
    claim_C10_saver_none "save" "deepsense" [("w", 1/2)] witnessSaverless (some 7)
      rfl (by decide)⟩

/-! ## The dropout rate defect (C6) and the batch-norm training flag (C7) -/

/-- Claim C6 fails on the code: dropout_conv_layer and dropout_dense_layer
pass their keep_prob argument as the rate of tf.layers.dropout, and rate is
the fraction of activations DROPPED while training.  At the configured
keep probability 4/5 with train=true, each activation survives with
probability 1 - 4/5 = 1/5, not the claimed 4/5. -/
theorem claim_C6_keep_prob_used_as_rate :
    dropoutSurvivalProb (dropout_conv_layer true (4/5)) = 1/5 ∧
    dropoutSurvivalProb (dropout_dense_layer true (4/5)) = 1/5 ∧
    dropoutSurvivalProb (dropout_conv_layer true (4/5)) ≠ 4/5 ∧
    dropoutSurvivalProb (dropout_dense_layer true (4/5)) ≠ 4/5 := by
  refine ⟨?_, ?_, ?_, ?_⟩ <;>
    norm_num [dropoutSurvivalProb, dropout_conv_layer, dropout_dense_layer]

/-- Claim C7 fails on the code in its batch-normalization half:
batch_norm_layer forwards train to the trainable keyword of
tf.layers.batch_normalization and never passes the training keyword, which
defaults to false - so batch normalization uses the inference behaviour
(moving statistics) under train=true exactly as under train=false, and the
train flag does not toggle it.  The dropout half does hold: with
train=false every dropout layer is the identity regardless of the sampled
mask, which is what makes inference deterministic. -/
theorem claim_C7_train_flag_batch_norm :
    bnMode (batch_norm_layer true) = BNMode.movingStats ∧
    bnMode (batch_norm_layer false) = BNMode.movingStats ∧
    (batch_norm_layer true).training = (batch_norm_layer false).training ∧
    ∀ (keep_prob : ℚ) (mask : List Bool) (xs : List ℚ),
      dropoutApply (dropout_conv_layer false keep_prob) mask xs = xs ∧
      dropoutApply (dropout_dense_layer false keep_prob) mask xs = xs :=
  ⟨rfl, rfl, rfl, fun _ _ _ => ⟨rfl, rfl⟩⟩

/-! ## The weights accessor (C9) -/

/-- Counterexample to claim C9 as stated: the weights property reads the
GLOBAL_VARIABLES collection (line 53), not the trainable variables.  On
the variable set a build with train=true creates for the witness
hyperparameters, the computed mapping also contains the non-trainable
batch-normalization moving statistics, so it differs from the mapping of
exactly the trainable parameters under the scope. -/
theorem claim_C9_counterexample :
    weightsCompute (buildModelVariables witnessParams "deepsense" true) "deepsense" ≠
      weightsClaimed (buildModelVariables witnessParams "deepsense" true) "deepsense" := by
  decide

/-- Claim C9 as amended: the weights property collects exactly the global
variables - trainable or not - whose names lie under the model name scope
into a mapping keyed by the name with the top-level scope component
stripped, computes it at most once, and every later read (even against a
changed registry) returns the cached mapping with the state unchanged. -/
theorem claim_C9_weights_cached (st : ModelState) (graph graph2 : List TFVariable)
    (h : st.weightsCache = none) : WeightsSpec st graph graph2 := by
  have h1 : weightsRead st graph =
      (weightsCompute graph st.name,
        { st with weightsCache := some (weightsCompute graph st.name) }) := by
    unfold weightsRead
    rw [h]
  have h2 : weightsRead
      { st with weightsCache := some (weightsCompute graph st.name) } graph2 =
      (weightsCompute graph st.name,
        { st with weightsCache := some (weightsCompute graph st.name) }) := rfl
  exact ⟨by rw [h1], by rw [h1], by rw [h1, h2], by rw [h1, h2]⟩

/-- Witness for the amended claim C9 on the concrete fresh instance and
the variable set of a build, with the registry then emptied to show the
cache is returned unchanged. -/
theorem claim_C9_witness :
    witnessFresh.weightsCache = none ∧
    WeightsSpec witnessFresh (buildModelVariables witnessParams "deepsense" true) [] :=
  ⟨rfl, claim_C9_weights_cached witnessFresh
    (buildModelVariables witnessParams "deepsense" true) [] rfl⟩

end DeepSenseVerif
